import Mathlib

/-!
Verification development for the AMOCA Solana a2a-x402 payment repository.

The definitions below are a shallow embedding of the TypeScript sources:

* `verifyPayment` embeds `SolanaPaymentExecutor.verifyPayment`
  (merchant-agent `src/executors/SolanaPaymentExecutor.ts`);
* `confirmTransaction` embeds `SolanaWallet.confirmTransaction`
  (client-agent `src/wallet/SolanaWallet.ts`), with the RPC modelled as a
  function from the attempt index to the observed poll result;
* `transferSol` embeds `SolanaWallet.transferSol`, with the environment
  (blockhash fetch, signing, submission, status polls) passed explicitly and
  the number of `sendTransaction` submissions returned alongside the result;
* `getProductDetailsAndRequestPayment` and
  `getProductDetailsAndRequestSolanaPayment` embed the requirement-building
  tools of `merchant-agent/agent.ts`, with the thrown
  `x402PaymentRequiredException` modelled as the `Except.ok` outcome and the
  thrown input-validation errors as `Except.error`.

JavaScript `bigint` values are modelled as `Int`; the `BigInt(string)`
conversion is modelled by `parseBigInt`, returning `none` where the
conversion throws.  The TypeScript fields named `from` and `to` are Lean
keywords and are rendered `fromAddr` and `toAddr`.
-/

/-- Leading and trailing whitespace removal on a character list, modelling
the string trimming performed by the JavaScript `BigInt(string)`
conversion.  (JavaScript trims the full Unicode whitespace class;
`Char.isWhitespace` covers the ASCII part, which is all the modelled
inputs use.) -/
def trimChars (l : List Char) : List Char :=
  ((l.dropWhile Char.isWhitespace).reverse.dropWhile Char.isWhitespace).reverse

/-- A non-empty all-decimal-digit character list read as a natural number;
`none` on the empty list or on any non-digit character. -/
def decDigits (l : List Char) : Option Nat :=
  if l = [] then none
  else
    l.foldl
      (fun acc c =>
        match acc with
        | none => none
        | some n => if c.isDigit then some (n * 10 + (c.toNat - 48)) else none)
      (some 0)

/-- Models the JavaScript `BigInt(string)` conversion on decimal inputs:
the string is trimmed, the empty string converts to 0, and an optional
sign followed by decimal digits converts to the signed value.  `none`
models a thrown `SyntaxError`.  (Hex/octal/binary prefixes accepted by
JavaScript are not modelled; no verified statement exercises them.) -/
def parseBigInt (s : String) : Option Int :=
  match trimChars s.data with
  | [] => some 0
  | c :: rest =>
    if c = '-' then (decDigits rest).map (fun n => -(n : Int))
    else if c = '+' then (decDigits rest).map (fun n => (n : Int))
    else (decDigits (c :: rest)).map (fun n => (n : Int))

/-- The `SolanaPaymentPayload` interface of `SolanaPaymentExecutor.ts`. -/
structure SolanaPaymentPayload where
  fromAddr : String
  toAddr : String
  amount : String
  signature : String
  timestamp : Int
  network : String
deriving DecidableEq

/-- The `SolanaPaymentRequirements` interface of `SolanaPaymentExecutor.ts`.
`scheme` is kept as a string, as in the TypeScript union `'exact' | 'up-to'`,
because `verifyPayment` compares it against string literals. -/
structure SolanaPaymentRequirements where
  scheme : String
  network : String
  asset : String
  payTo : String
  maxAmountRequired : String
  description : String
  resource : Option String
  tokenMint : Option String
deriving DecidableEq

/-- The `PaymentVerificationResult` interface of `SolanaPaymentExecutor.ts`;
absent optional fields are `none`. -/
structure PaymentVerificationResult where
  isValid : Bool
  transactionSignature : Option String
  amount : Option Int
  fromAddr : Option String
  toAddr : Option String
  error : Option String
deriving DecidableEq

/-- The error message returned on check 1 of `verifyPayment`:
payment sent to the wrong address. -/
def wrongAddressMsg (expected got : String) : String :=
  "Payment sent to wrong address. Expected: " ++ expected ++ ", Got: " ++ got

/-- The error message returned on the `exact`-scheme amount check of
`verifyPayment`: incorrect payment amount. -/
def incorrectAmountMsg (expected got : Int) : String :=
  "Incorrect payment amount. Expected: " ++ toString expected ++ ", Got: " ++ toString got

/-- The error message returned on the `up-to`-scheme amount check of
`verifyPayment`: payment amount exceeds the maximum. -/
def exceedsMaxMsg (maxAmount got : Int) : String :=
  "Payment amount exceeds maximum. Max: " ++ toString maxAmount ++ ", Got: " ++ toString got

/-- The error message returned on check 3 of `verifyPayment`: wrong network. -/
def wrongNetworkMsg (expected got : String) : String :=
  "Wrong network. Expected: " ++ expected ++ ", Got: " ++ got

/-- The error message returned on check 4 of `verifyPayment`:
invalid signature format. -/
def invalidSignatureMsg : String := "Invalid signature format"

/-- The V8 `SyntaxError` message produced when `BigInt(s)` throws; it is
caught by the surrounding `try` of `verifyPayment` and surfaced as the
`error` field. -/
def convertErrMsg (s : String) : String :=
  "Cannot convert " ++ s ++ " to a BigInt"

/-- A rejecting `PaymentVerificationResult`, as built by every early
`return { isValid: false, error }` of `verifyPayment`. -/
def reject (e : String) : PaymentVerificationResult :=
  { isValid := false, transactionSignature := none, amount := none,
    fromAddr := none, toAddr := none, error := some e }

/-- Embedding of `SolanaPaymentExecutor.verifyPayment`.  The checks run in
the source order: (1) recipient, (2) amount conversion and scheme-dependent
amount comparison, (3) network, (4) signature format; the success object
echoes the payload fields.  A `BigInt` conversion failure is caught by the
source's `try`/`catch` and returned as a rejection, first for
`payload.amount`, then for `requirements.maxAmountRequired`, matching the
evaluation order of the source. -/
def verifyPayment (payload : SolanaPaymentPayload)
    (requirements : SolanaPaymentRequirements) : PaymentVerificationResult :=
  if payload.toAddr ≠ requirements.payTo then
    reject (wrongAddressMsg requirements.payTo payload.toAddr)
  else
    match parseBigInt payload.amount, parseBigInt requirements.maxAmountRequired with
    | some paymentAmount, some requiredAmount =>
      if requirements.scheme = "exact" ∧ paymentAmount ≠ requiredAmount then
        reject (incorrectAmountMsg requiredAmount paymentAmount)
      else if requirements.scheme = "up-to" ∧ paymentAmount > requiredAmount then
        reject (exceedsMaxMsg requiredAmount paymentAmount)
      else if payload.network ≠ requirements.network then
        reject (wrongNetworkMsg requirements.network payload.network)
      else if payload.signature = "" ∨ payload.signature.length < 64 then
        reject invalidSignatureMsg
      else
        { isValid := true, transactionSignature := some payload.signature,
          amount := some paymentAmount, fromAddr := some payload.fromAddr,
          toAddr := some payload.toAddr, error := none }
    | none, _ => reject (convertErrMsg payload.amount)
    | some _, none => reject (convertErrMsg requirements.maxAmountRequired)

/-- One entry of the `getSignatureStatuses` response observed by
`SolanaWallet.confirmTransaction`: the confirmation status string (`null`
modelled as `none`) and the transaction error (`null` modelled as `none`,
a present error modelled as its serialized text). -/
structure SignatureStatus where
  confirmationStatus : Option String
  err : Option String
deriving DecidableEq

/-- What one iteration of the confirmation loop observes from the RPC:
either a successful response whose first entry is `status` (with `none`
for a `null`/absent entry), or a thrown RPC error. -/
inductive PollResult where
  | ok (status : Option SignatureStatus)
  | rpcError (msg : String)
deriving DecidableEq

/-- How a run of `SolanaWallet.confirmTransaction` ends: a plain return
(`confirmed`), a thrown transaction failure surfaced on the last attempt
(`failed`), a rethrown RPC error on the last attempt (`errored`), or the
final thrown confirmation timeout (`timedOut`). -/
inductive ConfirmOutcome where
  | confirmed
  | failed (msg : String)
  | errored (msg : String)
  | timedOut
deriving DecidableEq

/-- Outcome of a `confirmTransaction` run together with the number of
status queries issued and the number of 1000 ms sleeps executed. -/
structure ConfirmResult where
  outcome : ConfirmOutcome
  polls : Nat
  sleeps : Nat
deriving DecidableEq

/-- The body of the `while (retries < maxRetries)` loop of
`SolanaWallet.confirmTransaction`, with the remaining iteration count
(`fuel = maxRetries - retries`) made structural.  Per source iteration:
query the statuses; on `confirmed`/`finalized` without error return; on
`confirmed`/`finalized` with an error the thrown `Transaction failed`
error is caught by the loop's own `catch`, which rethrows only when
`retries === maxRetries - 1`; a thrown RPC error is treated the same way;
every iteration that does not return sleeps 1000 ms and retries; an
exhausted loop throws the confirmation timeout. -/
def confirmAux (poll : Nat → PollResult) (maxRetries : Nat) :
    Nat → Nat → ConfirmResult
  | 0, _ => { outcome := ConfirmOutcome.timedOut, polls := 0, sleeps := 0 }
  | fuel + 1, retries =>
    let continue_ : ConfirmResult :=
      let r := confirmAux poll maxRetries fuel (retries + 1)
      { outcome := r.outcome, polls := r.polls + 1, sleeps := r.sleeps + 1 }
    match poll retries with
    | PollResult.ok (some st) =>
      if st.confirmationStatus = some ("confirmed") ∨
          st.confirmationStatus = some ("finalized") then
        match st.err with
        | some e =>
          if retries = maxRetries - 1 then
            { outcome := ConfirmOutcome.failed ("Transaction failed: " ++ e),
              polls := 1, sleeps := 0 }
          else continue_
        | none => { outcome := ConfirmOutcome.confirmed, polls := 1, sleeps := 0 }
      else continue_
    | PollResult.ok none => continue_
    | PollResult.rpcError m =>
      if retries = maxRetries - 1 then
        { outcome := ConfirmOutcome.errored m, polls := 1, sleeps := 0 }
      else continue_

/-- Embedding of `SolanaWallet.confirmTransaction`: run the polling loop
from `retries = 0` with `maxRetries` iterations available.  The source's
default is `maxRetries = 30` (`defaultMaxRetries` below). -/
def confirmTransaction (poll : Nat → PollResult) (maxRetries : Nat) :
    ConfirmResult :=
  confirmAux poll maxRetries maxRetries 0

/-- The default `maxRetries = 30` of `SolanaWallet.confirmTransaction`;
with the source's fixed 1000 ms sleep this is the 30-second budget. -/
def defaultMaxRetries : Nat := 30

/-- A poll observation that is a terminal success for the loop:
a present status whose `confirmationStatus` is `confirmed` or `finalized`
and whose `err` is absent. -/
def terminalSuccess (p : PollResult) : Bool :=
  match p with
  | PollResult.ok (some st) =>
    (st.confirmationStatus = some ("confirmed") ∨
      st.confirmationStatus = some ("finalized")) ∧ st.err = none
  | _ => false

/-- A poll observation that reports no terminal status at all: the RPC
call succeeded and returned either no status or a status that is neither
`confirmed` nor `finalized`. -/
def pendingPoll (p : PollResult) : Bool :=
  match p with
  | PollResult.ok none => true
  | PollResult.ok (some st) =>
    ¬(st.confirmationStatus = some ("confirmed") ∨
      st.confirmationStatus = some ("finalized"))
  | PollResult.rpcError _ => false

/-- The result object of `SolanaWallet.transferSol`:
`{ success, signature?, error? }`. -/
structure TransferResult where
  success : Bool
  signature : Option String
  error : Option String
deriving DecidableEq

/-- The environment a `transferSol` invocation interacts with, step by
step: the latest-blockhash fetch, the signing of the built transaction
(yielding the transaction signature), the `sendTransaction` submission,
and the status polls seen by the confirmation loop.  `Except.error`
models a thrown error at that step. -/
structure TransferEnv where
  latestBlockhash : Except String String
  signedSignature : Except String String
  sendResult : Except String Unit
  statusPoll : Nat → PollResult

/-- Embedding of `SolanaWallet.transferSol`.  The second component counts
how many times `sendTransaction` was invoked.  Mirroring the source: get
the blockhash, build and sign the transaction, submit it once, then run
`confirmTransaction`; any thrown error is caught by the surrounding
`catch` and returned as `{ success: false, error }`. -/
def transferSol (env : TransferEnv) (maxRetries : Nat) : TransferResult × Nat :=
  match env.latestBlockhash with
  | Except.error e => ({ success := false, signature := none, error := some e }, 0)
  | Except.ok _blockhash =>
    match env.signedSignature with
    | Except.error e => ({ success := false, signature := none, error := some e }, 0)
    | Except.ok signature =>
      match env.sendResult with
      | Except.error e =>
        ({ success := false, signature := none, error := some e }, 1)
      | Except.ok _ =>
        match (confirmTransaction env.statusPoll maxRetries).outcome with
        | ConfirmOutcome.confirmed =>
          ({ success := true, signature := some signature, error := none }, 1)
        | ConfirmOutcome.failed m =>
          ({ success := false, signature := none, error := some m }, 1)
        | ConfirmOutcome.errored m =>
          ({ success := false, signature := none, error := some m }, 1)
        | ConfirmOutcome.timedOut =>
          ({ success := false, signature := none,
             error := some ("Transaction confirmation timeout") }, 1)

/-- The `extra.product` object attached to the requirements built by the
merchant agent's tools. -/
structure ProductInfo where
  sku : String
  name : String
  version : String
deriving DecidableEq

/-- The `extra` object attached to the requirements built by the merchant
agent's tools (`blockchain` is present only in the Solana variant). -/
structure RequirementExtra where
  name : String
  version : String
  blockchain : Option String
  product : ProductInfo
deriving DecidableEq

/-- The requirements object literal built by the merchant agent's tools
(`PaymentRequirements` of `a2a-x402`, extended the same way for the
Solana variant, which is typed `any` in the source). -/
structure AgentPaymentRequirements where
  scheme : String
  network : String
  asset : String
  payTo : String
  maxAmountRequired : String
  description : String
  resource : String
  mimeType : String
  maxTimeoutSeconds : Nat
  extra : RequirementExtra
deriving DecidableEq

/-- Structural subtyping made explicit: an agent-built requirements object
used where `SolanaPaymentExecutor.verifyPayment` expects
`SolanaPaymentRequirements` (the TypeScript call passes the object
through unchanged). -/
def asSolanaRequirements (r : AgentPaymentRequirements) : SolanaPaymentRequirements :=
  { scheme := r.scheme, network := r.network, asset := r.asset,
    payTo := r.payTo, maxAmountRequired := r.maxAmountRequired,
    description := r.description, resource := some r.resource,
    tokenMint := none }

/-- Embedding of `getProductPrice` of `merchant-agent/agent.ts`: a fixed
price of 1 USDC (1,000,000 atomic units) for every product. -/
def getProductPrice (_productName : String) : String := "1000000"

/-- Embedding of the tool `getProductDetailsAndRequestPayment` of
`merchant-agent/agent.ts` (Ethereum/Base-Sepolia variant).  The thrown
`x402PaymentRequiredException` carrying the requirements is the `Except.ok`
outcome; the thrown empty-product error is `Except.error`.  The wallet
address, network and USDC contract are the module-level configuration
values, passed here as parameters. -/
def getProductDetailsAndRequestPayment (productName : String)
    (walletAddress network usdcContract : String) :
    Except String AgentPaymentRequirements :=
  if productName.data.all Char.isWhitespace then
    Except.error ("Product name cannot be empty.")
  else
    Except.ok
      { scheme := "exact", network := network, asset := usdcContract,
        payTo := walletAddress,
        maxAmountRequired := getProductPrice productName,
        description := "Payment for: " ++ productName,
        resource := "https://example.com/product/" ++ productName,
        mimeType := "application/json", maxTimeoutSeconds := 1200,
        extra := { name := "USDC", version := "2", blockchain := none,
                   product := { sku := productName ++ "_sku",
                                name := productName, version := "1" } } }

/-- The Solana price constant of `getProductDetailsAndRequestSolanaPayment`:
`(0.1 * 1e9).toString()`.  In binary64 arithmetic `0.1 * 1e9` rounds to
exactly `100000000`, so the constant is the string `"100000000"`
(0.1 SOL in lamports). -/
def solanaPriceLamports : String := "100000000"

/-- Embedding of the tool `getProductDetailsAndRequestSolanaPayment` of
`merchant-agent/agent.ts`.  The module-level `solanaMerchantAddress` is
`none` until the asynchronous wallet initialisation completes, in which
case the tool throws before building requirements; the product-name check
runs first, as in the source. -/
def getProductDetailsAndRequestSolanaPayment (productName : String)
    (solanaMerchantAddress : Option String) :
    Except String AgentPaymentRequirements :=
  if productName.data.all Char.isWhitespace then
    Except.error ("Product name cannot be empty.")
  else
    match solanaMerchantAddress with
    | none => Except.error ("Solana wallet not initialized")
    | some addr =>
      Except.ok
        { scheme := "exact", network := "solana-devnet", asset := "SOL",
          payTo := addr, maxAmountRequired := solanaPriceLamports,
          description := "Payment for: " ++ productName,
          resource := "https://example.com/product/" ++ productName,
          mimeType := "application/json", maxTimeoutSeconds := 1200,
          extra := { name := "SOL", version := "2",
                     blockchain := some ("solana"),
                     product := { sku := productName ++ "_sku",
                                  name := productName, version := "1" } } }

/-- A 64-character signature string, meeting the minimum-length format
check of `verifyPayment`. -/
def sig64 : String :=
  "xxxxxxxxxxxxxxxxxxxxxxxxxxxxxxxxxxxxxxxxxxxxxxxxxxxxxxxxxxxxxxxx"

/-- A concrete merchant (recipient) address used in concrete scenarios. -/
def merchantAddr : String := "9xQeWvG816bUx9EPjHmaT23yvVM2ZWbrrpZb9PusVFin"

/-- A concrete client (sender) address used in concrete scenarios. -/
def clientAddr : String := "4Nd1mYbzoGmEr6iMSbnhm1SJ4ro3UJM84v1mP2fUfFnK"

/-- A fully matching concrete payload for `baseRequirements`. -/
def basePayload : SolanaPaymentPayload :=
  { fromAddr := clientAddr, toAddr := merchantAddr, amount := "100000000",
    signature := sig64, timestamp := 1700000000, network := "solana-devnet" }

/-- A concrete `exact`-scheme requirements object for 0.1 SOL on
`solana-devnet`. -/
def baseRequirements : SolanaPaymentRequirements :=
  { scheme := "exact", network := "solana-devnet", asset := "SOL",
    payTo := merchantAddr, maxAmountRequired := "100000000",
    description := "Payment for: banana", resource := none, tokenMint := none }

example : (verifyPayment basePayload baseRequirements).isValid = true := by decide

example :
    verifyPayment { basePayload with amount := "5" } baseRequirements =
      reject (incorrectAmountMsg 100000000 5) := by decide

example : parseBigInt ("100000000") = some 100000000 := by decide
example : parseBigInt ("abc") = none := by decide
example : parseBigInt ("") = some 0 := by decide
example : parseBigInt ("-5") = some (-5) := by decide

/-- Claim C1: `verifyPayment` runs its checks in the fixed order recipient,
amount, network, proof-format, short-circuiting on the first failure; in
particular a payload whose recipient differs from the requirement's
recipient is rejected with the wrong-recipient reason regardless of the
other fields.  Stated as: (1) recipient mismatch yields the wrong-address
rejection for every payload and requirement; (2) with the recipient
correct, an `exact`-scheme amount mismatch yields the incorrect-amount
rejection regardless of network and proof; (3) with recipient and amount
checks passing, a network mismatch yields the wrong-network rejection
regardless of the proof. -/
theorem verifyPayment_check_order :
    (∀ (p : SolanaPaymentPayload) (r : SolanaPaymentRequirements),
      p.toAddr ≠ r.payTo →
      verifyPayment p r = reject (wrongAddressMsg r.payTo p.toAddr)) ∧
    (∀ (p : SolanaPaymentPayload) (r : SolanaPaymentRequirements) (pa ra : Int),
      p.toAddr = r.payTo → parseBigInt p.amount = some pa →
      parseBigInt r.maxAmountRequired = some ra →
      r.scheme = "exact" → pa ≠ ra →
      verifyPayment p r = reject (incorrectAmountMsg ra pa)) ∧
    (∀ (p : SolanaPaymentPayload) (r : SolanaPaymentRequirements) (pa ra : Int),
      p.toAddr = r.payTo → parseBigInt p.amount = some pa →
      parseBigInt r.maxAmountRequired = some ra →
      ¬(r.scheme = "exact" ∧ pa ≠ ra) → ¬(r.scheme = "up-to" ∧ pa > ra) →
      p.network ≠ r.network →
      verifyPayment p r = reject (wrongNetworkMsg r.network p.network)) := by
  refine ⟨?_, ?_, ?_⟩
  · intro p r h
    simp [verifyPayment, h]
  · intro p r pa ra hto hpa hra hsch hne
    simp [verifyPayment, hto, hpa, hra, hsch, hne]
  · intro p r pa ra hto hpa hra hex hup hnet
    simp only [verifyPayment, hto, hpa, hra]
    rw [if_neg (by simp), if_neg hex, if_neg hup, if_pos hnet]

/-- Claim C1 witness: a payload mismatching on recipient, amount, network
and proof simultaneously is rejected with only the wrong-recipient
reason. -/
theorem verifyPayment_check_order_witness :
    ({ basePayload with
        toAddr := clientAddr,
        amount := "5",
        network := "other-net",
        signature := "" } : SolanaPaymentPayload).toAddr ≠
      baseRequirements.payTo ∧
    verifyPayment
      { basePayload with
          toAddr := clientAddr,
          amount := "5",
          network := "other-net",
          signature := "" } baseRequirements =
      reject (wrongAddressMsg baseRequirements.payTo clientAddr) :=
  ⟨by decide, verifyPayment_check_order.1 _ _ (by decide)⟩

/-- Claim C2 counterexample: an `exact`-scheme requirement and a payload
whose amount differs from the required amount but whose recipient is also
wrong is rejected with the wrong-recipient reason, not the
incorrect-amount reason — so the rejection reason is not independent of
recipient correctness. -/
theorem verifyPayment_exact_mismatch_masked_by_recipient :
    verifyPayment { basePayload with toAddr := clientAddr, amount := "5" }
        baseRequirements =
      reject (wrongAddressMsg merchantAddr clientAddr) ∧
    reject (wrongAddressMsg merchantAddr clientAddr) ≠
      reject (incorrectAmountMsg 100000000 5) := by
  constructor
  · decide
  · decide

/-- Claim C2 (amended): for every `exact`-scheme requirement and every
payload whose recipient matches and whose amount converts but differs
from the required amount, `verifyPayment` rejects with the
incorrect-amount reason, regardless of the network and proof fields. -/
theorem verifyPayment_exact_amount_mismatch
    (p : SolanaPaymentPayload) (r : SolanaPaymentRequirements) (pa ra : Int)
    (hto : p.toAddr = r.payTo) (hpa : parseBigInt p.amount = some pa)
    (hra : parseBigInt r.maxAmountRequired = some ra)
    (hsch : r.scheme = "exact") (hne : pa ≠ ra) :
    verifyPayment p r = reject (incorrectAmountMsg ra pa) := by
  simp [verifyPayment, hto, hpa, hra, hsch, hne]

/-- Claim C2 witness: with the recipient correct but the network wrong and
the proof malformed, an `exact` amount mismatch is still reported as the
incorrect-amount rejection. -/
theorem verifyPayment_exact_amount_mismatch_witness :
    verifyPayment
      { basePayload with amount := "5", network := "other-net", signature := "" }
      baseRequirements = reject (incorrectAmountMsg 100000000 5) :=
  verifyPayment_exact_amount_mismatch _ _ 5 100000000 (by decide) (by decide)
    (by decide) (by decide) (by decide)

/-- Claim C3: for every `up-to`-scheme requirement, a payload whose amount
is at most the required amount with correct recipient, network and proof
is accepted; a payload whose amount exceeds the required amount (with the
recipient correct, and regardless of network and proof) is rejected with
the exceeds-maximum reason. -/
theorem verifyPayment_upTo_spec :
    (∀ (p : SolanaPaymentPayload) (r : SolanaPaymentRequirements) (pa ra : Int),
      r.scheme = "up-to" → p.toAddr = r.payTo → p.network = r.network →
      parseBigInt p.amount = some pa → parseBigInt r.maxAmountRequired = some ra →
      pa ≤ ra → ¬(p.signature = "" ∨ p.signature.length < 64) →
      verifyPayment p r =
        { isValid := true, transactionSignature := some p.signature,
          amount := some pa, fromAddr := some p.fromAddr,
          toAddr := some p.toAddr, error := none }) ∧
    (∀ (p : SolanaPaymentPayload) (r : SolanaPaymentRequirements) (pa ra : Int),
      r.scheme = "up-to" → p.toAddr = r.payTo →
      parseBigInt p.amount = some pa → parseBigInt r.maxAmountRequired = some ra →
      pa > ra →
      verifyPayment p r = reject (exceedsMaxMsg ra pa)) := by
  constructor
  · intro p r pa ra hsch hto hnet hpa hra hle hsig
    have hex : ¬(r.scheme = "exact" ∧ pa ≠ ra) := by
      rintro ⟨h, -⟩; rw [hsch] at h; exact absurd h (by decide)
    have hup : ¬(r.scheme = "up-to" ∧ pa > ra) := by
      rintro ⟨-, h⟩; exact absurd h (not_lt.mpr hle)
    have hnn : ¬(p.network ≠ r.network) := by simp [hnet]
    simp only [verifyPayment, hpa, hra]
    rw [if_neg (by simp [hto]), if_neg hex, if_neg hup, if_neg hnn, if_neg hsig]
  · intro p r pa ra hsch hto hpa hra hgt
    have hex : ¬(r.scheme = "exact" ∧ pa ≠ ra) := by
      rintro ⟨h, -⟩; rw [hsch] at h; exact absurd h (by decide)
    simp only [verifyPayment, hpa, hra]
    rw [if_neg (by simp [hto]), if_neg hex, if_pos ⟨hsch, hgt⟩]

/-- Claim C3 witness: the spec scenario — an `up-to` requirement for at
most 500000000 on `net-A` paid with 300000000 to the right recipient on
`net-A` with a well-formed proof is accepted; 600000000 is rejected with
the exceeds-maximum reason. -/
theorem verifyPayment_upTo_spec_witness :
    verifyPayment
      { fromAddr := clientAddr, toAddr := "M1", amount := "300000000",
        signature := sig64, timestamp := 0, network := "net-A" }
      { scheme := "up-to", network := "net-A", asset := "SOL", payTo := "M1",
        maxAmountRequired := "500000000", description := "d",
        resource := none, tokenMint := none } =
      { isValid := true, transactionSignature := some sig64,
        amount := some 300000000, fromAddr := some clientAddr,
        toAddr := some ("M1"), error := none } ∧
    verifyPayment
      { fromAddr := clientAddr, toAddr := "M1", amount := "600000000",
        signature := sig64, timestamp := 0, network := "net-A" }
      { scheme := "up-to", network := "net-A", asset := "SOL", payTo := "M1",
        maxAmountRequired := "500000000", description := "d",
        resource := none, tokenMint := none } =
      reject (exceedsMaxMsg 500000000 600000000) :=
  ⟨verifyPayment_upTo_spec.1 _ _ 300000000 500000000 (by decide) (by decide)
      (by decide) (by decide) (by decide) (by decide) (by decide),
    verifyPayment_upTo_spec.2 _ _ 600000000 500000000 (by decide) (by decide)
      (by decide) (by decide) (by decide)⟩

/-- Claim C10: `verifyPayment` is total and its result is well-formed: for
every payload and requirement it returns a `PaymentVerificationResult`
(in particular an unconvertible amount string yields a rejection, not a
propagated exception), the result carries an error message exactly when
`isValid` is false, and an accepted result echoes the claimed signature,
amount, sender and recipient. -/
theorem verifyPayment_total_well_formed :
    ∀ (p : SolanaPaymentPayload) (r : SolanaPaymentRequirements),
      ((verifyPayment p r).error = none ↔ (verifyPayment p r).isValid = true) ∧
      (parseBigInt p.amount = none → (verifyPayment p r).isValid = false) ∧
      ((verifyPayment p r).isValid = true →
        (verifyPayment p r).transactionSignature = some p.signature ∧
        (verifyPayment p r).amount = parseBigInt p.amount ∧
        (verifyPayment p r).fromAddr = some p.fromAddr ∧
        (verifyPayment p r).toAddr = some p.toAddr) := by
  intro p r
  unfold verifyPayment
  repeat' split
  all_goals simp_all [reject]

/-- Claim C10 witness: the all-correct base payload is accepted and echoes
its fields, and that acceptance satisfies the well-formedness clauses. -/
theorem verifyPayment_total_well_formed_witness :
    ((verifyPayment basePayload baseRequirements).error = none ↔
      (verifyPayment basePayload baseRequirements).isValid = true) ∧
    ((verifyPayment basePayload baseRequirements).isValid = true →
      (verifyPayment basePayload baseRequirements).transactionSignature =
          some basePayload.signature ∧
      (verifyPayment basePayload baseRequirements).amount =
          parseBigInt basePayload.amount ∧
      (verifyPayment basePayload baseRequirements).fromAddr =
          some basePayload.fromAddr ∧
      (verifyPayment basePayload baseRequirements).toAddr =
          some basePayload.toAddr) :=
  ⟨(verifyPayment_total_well_formed basePayload baseRequirements).1,
    (verifyPayment_total_well_formed basePayload baseRequirements).2.2⟩

/-- Claim C4: a requirement built by the merchant tool for product
"banana" (scheme `exact`, 100000000 lamports), verified against a payload
claiming 100000000 lamports to the same recipient on the same network
with a well-formed proof, is accepted. -/
theorem roundtrip_banana_exact_accepted :
    (getProductDetailsAndRequestSolanaPayment ("banana") (some merchantAddr)).map
        (fun r => r.maxAmountRequired) = Except.ok ("100000000") ∧
    (getProductDetailsAndRequestSolanaPayment ("banana") (some merchantAddr)).map
        (fun r =>
          (verifyPayment
            { fromAddr := clientAddr, toAddr := merchantAddr,
              amount := "100000000", signature := sig64,
              timestamp := 1700000000, network := "solana-devnet" }
            (asSolanaRequirements r)).isValid) = Except.ok true := by
  constructor
  · rfl
  · rfl

/-- Claim C5 evidence: the requirement built for "banana" carries
`maxTimeoutSeconds = 1200`, yet a payload whose creation timestamp lies
arbitrarily far beyond any such window is accepted — `verifyPayment`
never reads `payload.timestamp` or any timeout field, so requirement
expiry is not enforced anywhere in verification. -/
theorem verifyPayment_accepts_expired_payload :
    (getProductDetailsAndRequestSolanaPayment ("banana") (some merchantAddr)).map
        (fun r => r.maxTimeoutSeconds) = Except.ok 1200 ∧
    (getProductDetailsAndRequestSolanaPayment ("banana") (some merchantAddr)).map
        (fun r =>
          (verifyPayment
            { fromAddr := clientAddr, toAddr := merchantAddr,
              amount := "100000000", signature := sig64,
              timestamp := 99999999999999, network := "solana-devnet" }
            (asSolanaRequirements r)).isValid) = Except.ok true := by
  constructor
  · rfl
  · rfl

/-- Claim C9: each requirement-builder tool fails exactly when the product
name is empty or whitespace-only, and for every valid product name it
succeeds with the single configured price for its network — 1000000
atomic USDC units on the EVM tool and 100000000 lamports on the Solana
tool — independent of the product named (given an initialised merchant
wallet for the Solana tool). -/
theorem requirement_builders_fixed_price :
    ∀ (name wallet net usdc solAddr : String),
      (name.data.all Char.isWhitespace = true →
        getProductDetailsAndRequestPayment name wallet net usdc =
          Except.error ("Product name cannot be empty.") ∧
        getProductDetailsAndRequestSolanaPayment name (some solAddr) =
          Except.error ("Product name cannot be empty.")) ∧
      (¬ name.data.all Char.isWhitespace = true →
        (getProductDetailsAndRequestPayment name wallet net usdc).map
            (fun r => (r.scheme, r.network, r.payTo, r.maxAmountRequired)) =
          Except.ok ("exact", net, wallet, getProductPrice name) ∧
        getProductPrice name = "1000000" ∧
        (getProductDetailsAndRequestSolanaPayment name (some solAddr)).map
            (fun s => (s.scheme, s.network, s.payTo, s.maxAmountRequired)) =
          Except.ok ("exact", "solana-devnet", solAddr, solanaPriceLamports) ∧
        solanaPriceLamports = "100000000") := by
  intro name wallet net usdc solAddr
  constructor
  · intro h
    constructor
    · simp [getProductDetailsAndRequestPayment, h]
    · simp [getProductDetailsAndRequestSolanaPayment, h]
  · intro h
    refine ⟨?_, rfl, ?_, rfl⟩
    · unfold getProductDetailsAndRequestPayment
      rw [if_neg h]
      rfl
    · unfold getProductDetailsAndRequestSolanaPayment
      rw [if_neg h]
      rfl

/-- Claim C9 witness: the builders reject the whitespace-only product name
and, for "banana" and "apple" alike, assign the same fixed prices. -/
theorem requirement_builders_fixed_price_witness :
    (getProductDetailsAndRequestPayment (" ") ("W") ("base-sepolia") ("U") =
        Except.error ("Product name cannot be empty.") ∧
      getProductDetailsAndRequestSolanaPayment (" ") (some ("S")) =
        Except.error ("Product name cannot be empty.")) ∧
    (getProductDetailsAndRequestPayment ("banana") ("W") ("base-sepolia")
          ("U")).map
        (fun r => (r.scheme, r.network, r.payTo, r.maxAmountRequired)) =
      Except.ok ("exact", "base-sepolia", "W", getProductPrice ("banana")) ∧
    (getProductDetailsAndRequestSolanaPayment ("apple") (some ("S"))).map
        (fun s => (s.scheme, s.network, s.payTo, s.maxAmountRequired)) =
      Except.ok ("exact", "solana-devnet", "S", solanaPriceLamports) :=
  ⟨(requirement_builders_fixed_price (" ") ("W") ("base-sepolia") ("U")
      ("S")).1 (by decide),
    (((requirement_builders_fixed_price ("banana") ("W") ("base-sepolia") ("U")
      ("S")).2 (by decide)).1),
    (((requirement_builders_fixed_price ("apple") ("W") ("base-sepolia") ("U")
      ("S")).2 (by decide)).2.2.1)⟩

/-- Helper for the polling loop: when every poll within the remaining
fuel reports no terminal status, the loop issues one query and one sleep
per remaining attempt and ends in the confirmation timeout. -/
theorem confirmAux_pending (poll : Nat → PollResult) (maxRetries : Nat) :
    ∀ (fuel retries : Nat),
      (∀ j, j < fuel → pendingPoll (poll (retries + j)) = true) →
      confirmAux poll maxRetries fuel retries =
        { outcome := ConfirmOutcome.timedOut, polls := fuel, sleeps := fuel } := by
  intro fuel
  induction fuel with
  | zero => intro retries _; rfl
  | succ n ih =>
    intro retries h
    have h0 := h 0 n.succ_pos
    rw [Nat.add_zero] at h0
    have hrec := ih (retries + 1) (fun j hj => by
      have hsucc := h (j + 1) (by omega)
      have harith : retries + (j + 1) = retries + 1 + j := by omega
      rwa [harith] at hsucc)
    cases hp : poll retries with
    | ok st =>
      cases st with
      | none => simp only [confirmAux, hp, hrec]
      | some s =>
        rw [hp] at h0
        have h0' : ¬(s.confirmationStatus = some ("confirmed") ∨
            s.confirmationStatus = some ("finalized")) := by
          simpa [pendingPoll] using h0
        simp only [confirmAux, hp, if_neg h0', hrec]
    | rpcError m =>
      rw [hp] at h0
      simp [pendingPoll] at h0

/-- Claim C7: a confirmation run in which no poll observes a terminal
status performs exactly `maxRetries` status queries (sleeping 1000 ms
after each unsuccessful poll) and then ends in the confirmation timeout —
never fewer and never more polls. -/
theorem confirmTransaction_all_pending_times_out
    (poll : Nat → PollResult) (maxRetries : Nat)
    (h : ∀ j, j < maxRetries → pendingPoll (poll j) = true) :
    confirmTransaction poll maxRetries =
      { outcome := ConfirmOutcome.timedOut, polls := maxRetries,
        sleeps := maxRetries } := by
  unfold confirmTransaction
  exact confirmAux_pending poll maxRetries maxRetries 0
    (fun j hj => by simpa using h j hj)

/-- Claim C7 witness: with the default 30-attempt budget and a status that
never becomes terminal, the poller issues exactly 30 queries and times
out. -/
theorem confirmTransaction_all_pending_times_out_witness :
    (∀ j, j < defaultMaxRetries →
      pendingPoll ((fun _ => PollResult.ok none) j) = true) ∧
    confirmTransaction (fun _ => PollResult.ok none) defaultMaxRetries =
      { outcome := ConfirmOutcome.timedOut, polls := 30, sleeps := 30 } :=
  ⟨by decide, confirmTransaction_all_pending_times_out _ _ (by decide)⟩

/-- Helper for the polling loop: if attempt `i` (relative to the current
`retries` index) is the first to observe a terminal success and `i` is
within the remaining fuel, the loop returns confirmed right there, with
`i + 1` queries issued and only the `i` sleeps of the earlier
unsuccessful attempts. -/
theorem confirmAux_first_success (poll : Nat → PollResult) (maxRetries : Nat) :
    ∀ (i fuel retries : Nat), i < fuel → fuel + retries = maxRetries →
      terminalSuccess (poll (retries + i)) = true →
      (∀ j, j < i → terminalSuccess (poll (retries + j)) = false) →
      confirmAux poll maxRetries fuel retries =
        { outcome := ConfirmOutcome.confirmed, polls := i + 1, sleeps := i } := by
  intro i
  induction i with
  | zero =>
    intro fuel retries hif hinv hsucc _
    obtain ⟨n, rfl⟩ : ∃ n, fuel = n + 1 := ⟨fuel - 1, by omega⟩
    rw [Nat.add_zero] at hsucc
    cases hp : poll retries with
    | ok st =>
      cases st with
      | none => rw [hp] at hsucc; simp [terminalSuccess] at hsucc
      | some s =>
        rw [hp] at hsucc
        have hs : (s.confirmationStatus = some ("confirmed") ∨
            s.confirmationStatus = some ("finalized")) ∧ s.err = none := by
          simpa [terminalSuccess] using hsucc
        simp only [confirmAux, hp, if_pos hs.1, hs.2]
    | rpcError m => rw [hp] at hsucc; simp [terminalSuccess] at hsucc
  | succ i ih =>
    intro fuel retries hif hinv hsucc hbef
    obtain ⟨n, rfl⟩ : ∃ n, fuel = n + 1 := ⟨fuel - 1, by omega⟩
    have h0 : terminalSuccess (poll retries) = false := by
      have hb := hbef 0 i.succ_pos
      rwa [Nat.add_zero] at hb
    have hlast : ¬(retries = maxRetries - 1) := by omega
    have hrec := ih n (retries + 1) (by omega) (by omega)
      (by
        have harith : retries + 1 + i = retries + (i + 1) := by omega
        rw [harith]; exact hsucc)
      (fun j hj => by
        have hb := hbef (j + 1) (by omega)
        have harith : retries + (j + 1) = retries + 1 + j := by omega
        rwa [harith] at hb)
    cases hp : poll retries with
    | ok st =>
      cases st with
      | none => simp only [confirmAux, hp, hrec]
      | some s =>
        rw [hp] at h0
        have h0' : ¬((s.confirmationStatus = some ("confirmed") ∨
            s.confirmationStatus = some ("finalized")) ∧ s.err = none) := by
          simpa [terminalSuccess] using h0
        by_cases hcs : s.confirmationStatus = some ("confirmed") ∨
            s.confirmationStatus = some ("finalized")
        · cases he : s.err with
          | none => exact absurd ⟨hcs, he⟩ h0'
          | some e =>
            simp only [confirmAux, hp, if_pos hcs, he, if_neg hlast, hrec]
        · simp only [confirmAux, hp, if_neg hcs, hrec]
    | rpcError m =>
      simp only [confirmAux, hp, if_neg hlast, hrec]

/-- Claim C6: on the first attempt that observes a terminal success status
(`confirmed` or `finalized` without error) the poller returns immediately:
`i + 1` status queries and only the `i` sleeps of the earlier attempts, so
no sleep is executed between the successful observation and the return. -/
theorem confirmTransaction_first_success_no_sleep
    (poll : Nat → PollResult) (maxRetries i : Nat) (hi : i < maxRetries)
    (hsucc : terminalSuccess (poll i) = true)
    (hbef : ∀ j, j < i → terminalSuccess (poll j) = false) :
    confirmTransaction poll maxRetries =
      { outcome := ConfirmOutcome.confirmed, polls := i + 1, sleeps := i } := by
  unfold confirmTransaction
  refine confirmAux_first_success poll maxRetries i maxRetries 0 hi (by omega)
    (by simpa using hsucc) (fun j hj => by simpa using hbef j hj)

/-- Claim C6 witness: a status stream that is pending on attempts 0 and 1
and confirmed on attempt 2 yields a confirmed run with 3 polls and only
the 2 sleeps that preceded the successful poll. -/
theorem confirmTransaction_first_success_no_sleep_witness :
    2 < defaultMaxRetries ∧
    confirmTransaction
      (fun n =>
        if n = 2 then
          PollResult.ok (some { confirmationStatus := some ("confirmed"),
                                err := none })
        else PollResult.ok none) defaultMaxRetries =
      { outcome := ConfirmOutcome.confirmed, polls := 3, sleeps := 2 } :=
  ⟨by decide,
    confirmTransaction_first_success_no_sleep _ defaultMaxRetries 2 (by decide)
      (by decide) (by decide)⟩

/-- Claim C8: in every `transferSol` invocation the signed transaction is
submitted to the ledger at most once — whatever the environment does at
each step — and a confirmation timeout makes the invocation report
failure rather than resubmit. -/
theorem transferSol_submits_at_most_once :
    ∀ (env : TransferEnv) (maxRetries : Nat),
      (transferSol env maxRetries).2 ≤ 1 ∧
      ((confirmTransaction env.statusPoll maxRetries).outcome =
          ConfirmOutcome.timedOut →
        (transferSol env maxRetries).1.success = false) := by
  intro env maxRetries
  obtain ⟨bh, sg, sr, sp⟩ := env
  cases bh <;> cases sg <;> cases sr <;> unfold transferSol
  all_goals simp_all
  all_goals split <;> simp_all

/-- Claim C8 witness: a run whose submission succeeds but whose
confirmation times out submits exactly once and reports failure. -/
theorem transferSol_submits_at_most_once_witness :
    (confirmTransaction (fun _ => PollResult.ok none) 2).outcome =
      ConfirmOutcome.timedOut ∧
    (transferSol
        { latestBlockhash := Except.ok ("bh"),
          signedSignature := Except.ok ("sig"),
          sendResult := Except.ok (),
          statusPoll := fun _ => PollResult.ok none } 2).2 ≤ 1 ∧
    (transferSol
        { latestBlockhash := Except.ok ("bh"),
          signedSignature := Except.ok ("sig"),
          sendResult := Except.ok (),
          statusPoll := fun _ => PollResult.ok none } 2).1.success = false :=
  ⟨by decide,
    (transferSol_submits_at_most_once
      { latestBlockhash := Except.ok ("bh"),
        signedSignature := Except.ok ("sig"),
        sendResult := Except.ok (),
        statusPoll := fun _ => PollResult.ok none } 2).1,
    (transferSol_submits_at_most_once
      { latestBlockhash := Except.ok ("bh"),
        signedSignature := Except.ok ("sig"),
        sendResult := Except.ok (),
        statusPoll := fun _ => PollResult.ok none } 2).2 (by decide)⟩
